import Mathlib

/-!
Verification of the Contacts backend (`main.py`, `dataModels.py`,
`classes/emails.py`, `classes/messaging.py`) against its natural-language
specification.

The Python code is shallowly embedded: pure helpers become Lean functions,
the module-level `_counter` cell becomes explicit state passing, machine
integers become `Nat` with explicit `% 2 ^ w` where Python masks, and code
that raises `ValueError` / pydantic `ValidationError` returns `Except` /
`Option`.  String helpers (`str.strip`, `str.lower`, `str.isalpha`,
regular-expression character classes) are modelled on the ASCII range,
which is where every claim under study lives.
-/

namespace Contacts

/-- Python `str.isspace` over the ASCII range: the characters removed by
`str.strip()` (space, tab, newline, carriage return, vertical tab, form feed). -/
def isPySpace (c : Char) : Bool :=
  c = ' ' || c = '\t' || c = '\n' || c = '\r' || c = Char.ofNat 11 || c = Char.ofNat 12

/-- Python `str.strip()`: remove leading and trailing whitespace. -/
def pyStrip (s : String) : String :=
  String.mk (((s.toList.dropWhile isPySpace).reverse.dropWhile isPySpace).reverse)

/-- Python `str.lower()` over the ASCII range. -/
def pyLower (s : String) : String :=
  String.mk (s.toList.map Char.toLower)

/-! ### Bytes and hexadecimal strings

`generate_id` builds a 12-byte value with `struct.pack('>I', ...)` and
`int.to_bytes(n, 'big')` and renders it with `bytes.hex()`. -/

/-- One lowercase hexadecimal digit, as produced by Python `bytes.hex()`. -/
def hexDigit (n : Nat) : Char :=
  if n < 10 then Char.ofNat (48 + n) else Char.ofNat (87 + n)

/-- Numeric value of a lowercase hexadecimal digit. -/
def hexVal (c : Char) : Nat :=
  if c.toNat ≤ 57 then c.toNat - 48 else c.toNat - 87

/-- Python `bytes.hex()`: two lowercase hex digits per byte. -/
def bytesToHexChars : List Nat → List Char
  | [] => []
  | b :: bs => hexDigit (b / 16) :: hexDigit (b % 16) :: bytesToHexChars bs

/-- Python `int.to_bytes(n, 'big')` (and `struct.pack('>I', v)` for `n = 4`):
the big-endian byte list of length `n`.  Python raises on `v ≥ 256 ^ n`; the
theorems below carry that bound as a hypothesis. -/
def natToBytesBE : Nat → Nat → List Nat
  | 0, _ => []
  | n + 1, v => natToBytesBE n (v / 256) ++ [v % 256]

/-- Value of a big-endian byte list, read as an unsigned integer. -/
def beVal (bs : List Nat) : Nat := bs.foldl (fun a b => 256 * a + b) 0

/-- Value of a big-endian string of hex digits, read as an unsigned integer. -/
def hexCharsToNat (cs : List Char) : Nat := cs.foldl (fun a c => 16 * a + hexVal c) 0

/-- Is `c` one of the characters `bytes.hex()` can produce? -/
def isLowerHexDigit (c : Char) : Bool :=
  c.isDigit || (97 ≤ c.toNat && c.toNat ≤ 102)

theorem natToBytesBE_length (n v : Nat) : (natToBytesBE n v).length = n := by
  induction n generalizing v with
  | zero => rfl
  | succ n ih => simp [natToBytesBE, ih]

theorem natToBytesBE_lt (n v : Nat) : ∀ b ∈ natToBytesBE n v, b < 256 := by
  induction n generalizing v with
  | zero => intro b hb; simp [natToBytesBE] at hb
  | succ n ih =>
    intro b hb
    simp only [natToBytesBE, List.mem_append, List.mem_singleton] at hb
    rcases hb with hb | hb
    · exact ih _ b hb
    · subst hb; exact Nat.mod_lt _ (by norm_num)

theorem beVal_from (bs : List Nat) (a : Nat) :
    bs.foldl (fun a b => 256 * a + b) a = a * 256 ^ bs.length + beVal bs := by
  induction bs generalizing a with
  | nil => simp [beVal]
  | cons b t ih =>
    show t.foldl _ (256 * a + b) = _
    rw [ih (256 * a + b)]
    have hb : beVal (b :: t) = b * 256 ^ t.length + beVal t := by
      show t.foldl _ (256 * 0 + b) = _
      rw [ih (256 * 0 + b)]; ring_nf
    rw [hb]
    simp [List.length_cons, pow_succ]
    ring

theorem beVal_append (xs ys : List Nat) :
    beVal (xs ++ ys) = beVal xs * 256 ^ ys.length + beVal ys := by
  unfold beVal
  rw [List.foldl_append, beVal_from]
  rfl

theorem beVal_natToBytesBE (n v : Nat) (h : v < 256 ^ n) :
    beVal (natToBytesBE n v) = v := by
  induction n generalizing v with
  | zero =>
    simp [natToBytesBE, beVal]
    omega
  | succ n ih =>
    have hdiv : v / 256 < 256 ^ n := by
      rw [Nat.div_lt_iff_lt_mul (by norm_num)]
      calc v < 256 ^ (n + 1) := h
        _ = 256 ^ n * 256 := by rw [pow_succ]
    rw [natToBytesBE, beVal_append, ih _ hdiv]
    simp [beVal]
    omega

theorem bytesToHexChars_append (xs ys : List Nat) :
    bytesToHexChars (xs ++ ys) = bytesToHexChars xs ++ bytesToHexChars ys := by
  induction xs with
  | nil => rfl
  | cons b t ih => simp [bytesToHexChars, ih]

theorem bytesToHexChars_length (bs : List Nat) :
    (bytesToHexChars bs).length = 2 * bs.length := by
  induction bs with
  | nil => rfl
  | cons b t ih => simp [bytesToHexChars, ih]; ring

theorem hexVal_hexDigit : ∀ n, n < 16 → hexVal (hexDigit n) = n := by decide

theorem isLowerHexDigit_hexDigit : ∀ n, n < 16 → isLowerHexDigit (hexDigit n) = true := by
  decide

theorem hexCharsToNat_from (bs : List Nat) (h : ∀ b ∈ bs, b < 256) (a : Nat) :
    (bytesToHexChars bs).foldl (fun a c => 16 * a + hexVal c) a =
      bs.foldl (fun a b => 256 * a + b) a := by
  induction bs generalizing a with
  | nil => rfl
  | cons b t ih =>
    have hb : b < 256 := h b (by simp)
    have h1 : hexVal (hexDigit (b / 16)) = b / 16 :=
      hexVal_hexDigit _ (Nat.div_lt_of_lt_mul (by omega))
    have h2 : hexVal (hexDigit (b % 16)) = b % 16 :=
      hexVal_hexDigit _ (Nat.mod_lt _ (by norm_num))
    show (bytesToHexChars t).foldl _ (16 * (16 * a + hexVal (hexDigit (b / 16))) +
        hexVal (hexDigit (b % 16))) = t.foldl _ (256 * a + b)
    rw [h1, h2, ih (fun x hx => h x (by simp [hx]))]
    congr 1
    omega

theorem hexCharsToNat_bytesToHexChars (bs : List Nat) (h : ∀ b ∈ bs, b < 256) :
    hexCharsToNat (bytesToHexChars bs) = beVal bs :=
  hexCharsToNat_from bs h 0

theorem bytesToHexChars_all_hex (bs : List Nat) (h : ∀ b ∈ bs, b < 256) :
    ∀ c ∈ bytesToHexChars bs, isLowerHexDigit c = true := by
  induction bs with
  | nil => intro c hc; simp [bytesToHexChars] at hc
  | cons b t ih =>
    intro c hc
    have hb : b < 256 := h b (by simp)
    simp only [bytesToHexChars, List.mem_cons] at hc
    rcases hc with hc | hc | hc
    · subst hc; exact isLowerHexDigit_hexDigit _ (Nat.div_lt_of_lt_mul (by omega))
    · subst hc; exact isLowerHexDigit_hexDigit _ (Nat.mod_lt _ (by norm_num))
    · exact ih (fun x hx => h x (by simp [hx])) c hc

/-! ### `main.generate_id` -/

/-- The module-level `_counter` cell of `main.py`.  It is initialised with
`random.randint(0, 0xFFFFFF)`; theorems quantify over any value in that range. -/
structure GenState where
  counter : Nat
deriving DecidableEq

theorem GenState.counter_inj (a b : GenState) (h : a.counter = b.counter) : a = b := by
  cases a; cases b; simpa using h

/-- Embeds `main.generate_id`.  The impure observations are passed in: `timestamp`
is `int(time.time())` and `rand` is `random.getrandbits(40)`.  The `_counter`
cell is threaded as state; `(_counter + 1) & 0xFFFFFF` is `% 2 ^ 24` on
non-negative integers. -/
def generate_id (timestamp rand : Nat) (st : GenState) : String × GenState :=
  let counter := st.counter
  let st' : GenState := ⟨(st.counter + 1) % 16777216⟩
  let id_bytes := natToBytesBE 4 timestamp ++ natToBytesBE 5 rand ++ natToBytesBE 3 counter
  (String.mk (bytesToHexChars id_bytes), st')

theorem generate_id_toList (ts rand : Nat) (st : GenState) :
    ((generate_id ts rand st).1).toList =
      bytesToHexChars (natToBytesBE 4 ts) ++
        (bytesToHexChars (natToBytesBE 5 rand) ++ bytesToHexChars (natToBytesBE 3 st.counter)) := by
  show bytesToHexChars (natToBytesBE 4 ts ++ natToBytesBE 5 rand ++ natToBytesBE 3 st.counter) = _
  rw [List.append_assoc, bytesToHexChars_append, bytesToHexChars_append]

theorem generate_id_counter (ts rand : Nat) (st : GenState) :
    ((generate_id ts rand st).2).counter = (st.counter + 1) % 2 ^ 24 := by
  show (st.counter + 1) % 16777216 = (st.counter + 1) % 2 ^ 24
  norm_num

theorem generate_id_take8 (ts rand : Nat) (st : GenState) :
    ((generate_id ts rand st).1).toList.take 8 = bytesToHexChars (natToBytesBE 4 ts) := by
  have h : (bytesToHexChars (natToBytesBE 4 ts)).length = 8 := by
    rw [bytesToHexChars_length, natToBytesBE_length]
  rw [generate_id_toList, ← h, List.take_left]

theorem generate_id_drop8 (ts rand : Nat) (st : GenState) :
    ((generate_id ts rand st).1).toList.drop 8 =
      bytesToHexChars (natToBytesBE 5 rand) ++ bytesToHexChars (natToBytesBE 3 st.counter) := by
  have h : (bytesToHexChars (natToBytesBE 4 ts)).length = 8 := by
    rw [bytesToHexChars_length, natToBytesBE_length]
  rw [generate_id_toList, ← h, List.drop_left]

theorem generate_id_mid10 (ts rand : Nat) (st : GenState) :
    (((generate_id ts rand st).1).toList.drop 8).take 10 =
      bytesToHexChars (natToBytesBE 5 rand) := by
  have h : (bytesToHexChars (natToBytesBE 5 rand)).length = 10 := by
    rw [bytesToHexChars_length, natToBytesBE_length]
  rw [generate_id_drop8, ← h, List.take_left]

theorem generate_id_drop18 (ts rand : Nat) (st : GenState) :
    ((generate_id ts rand st).1).toList.drop 18 =
      bytesToHexChars (natToBytesBE 3 st.counter) := by
  have h5 : (bytesToHexChars (natToBytesBE 5 rand)).length = 10 := by
    rw [bytesToHexChars_length, natToBytesBE_length]
  have : ((generate_id ts rand st).1).toList.drop 18 =
      (((generate_id ts rand st).1).toList.drop 8).drop 10 := by
    rw [List.drop_drop]
  rw [this, generate_id_drop8, ← h5, List.drop_left]

theorem generate_id_ts_val (ts rand : Nat) (st : GenState) (hts : ts < 2 ^ 32) :
    hexCharsToNat (((generate_id ts rand st).1).toList.take 8) = ts := by
  rw [generate_id_take8, hexCharsToNat_bytesToHexChars _ (natToBytesBE_lt 4 ts),
    beVal_natToBytesBE 4 ts (by norm_num at hts ⊢; omega)]

theorem generate_id_rand_val (ts rand : Nat) (st : GenState) (hr : rand < 2 ^ 40) :
    hexCharsToNat ((((generate_id ts rand st).1).toList.drop 8).take 10) = rand := by
  rw [generate_id_mid10, hexCharsToNat_bytesToHexChars _ (natToBytesBE_lt 5 rand),
    beVal_natToBytesBE 5 rand (by norm_num at hr ⊢; omega)]

theorem generate_id_counter_val (ts rand : Nat) (st : GenState) (hc : st.counter < 2 ^ 24) :
    hexCharsToNat (((generate_id ts rand st).1).toList.drop 18) = st.counter := by
  rw [generate_id_drop18, hexCharsToNat_bytesToHexChars _ (natToBytesBE_lt 3 st.counter),
    beVal_natToBytesBE 3 st.counter (by norm_num at hc ⊢; omega)]

theorem generate_id_length (ts rand : Nat) (st : GenState) :
    ((generate_id ts rand st).1).length = 24 := by
  show (bytesToHexChars (natToBytesBE 4 ts ++ natToBytesBE 5 rand ++
      natToBytesBE 3 st.counter)).length = 24
  rw [bytesToHexChars_length]
  simp [natToBytesBE_length]

theorem generate_id_all_hex (ts rand : Nat) (st : GenState) :
    ((generate_id ts rand st).1).toList.all isLowerHexDigit = true := by
  rw [List.all_eq_true]
  intro c hc
  refine bytesToHexChars_all_hex _ ?_ c hc
  intro b hb
  simp only [List.mem_append] at hb
  rcases hb with (hb | hb) | hb
  · exact natToBytesBE_lt 4 _ b hb
  · exact natToBytesBE_lt 5 _ b hb
  · exact natToBytesBE_lt 3 _ b hb

/-- The 12-byte value of a generated id, read as an unsigned big-endian integer. -/
theorem generate_id_val (ts rand : Nat) (st : GenState)
    (hts : ts < 2 ^ 32) (hr : rand < 2 ^ 40) (hc : st.counter < 2 ^ 24) :
    hexCharsToNat (((generate_id ts rand st).1).toList) =
      ts * 2 ^ 64 + rand * 2 ^ 24 + st.counter := by
  rw [generate_id_toList, ← bytesToHexChars_append, ← bytesToHexChars_append]
  have hall : ∀ b ∈ natToBytesBE 4 ts ++ (natToBytesBE 5 rand ++ natToBytesBE 3 st.counter),
      b < 256 := by
    intro b hb
    simp only [List.mem_append] at hb
    rcases hb with hb | hb | hb
    · exact natToBytesBE_lt 4 _ b hb
    · exact natToBytesBE_lt 5 _ b hb
    · exact natToBytesBE_lt 3 _ b hb
  rw [hexCharsToNat_bytesToHexChars _ hall, beVal_append, beVal_append,
    beVal_natToBytesBE 4 ts (by norm_num at hts ⊢; omega),
    beVal_natToBytesBE 5 rand (by norm_num at hr ⊢; omega),
    beVal_natToBytesBE 3 st.counter (by norm_num at hc ⊢; omega)]
  simp [natToBytesBE_length, List.length_append]
  ring

/-- C2: every generated id is a 24-character hex string whose first 4 bytes
are the timestamp (big-endian), next 5 bytes the fresh random value, and last
3 bytes the per-process counter; the counter advances by exactly 1 per call,
wrapping at `2 ^ 24`. -/
theorem generated_id_format (ts rand : Nat) (st : GenState)
    (hts : ts < 2 ^ 32) (hr : rand < 2 ^ 40) (hc : st.counter < 2 ^ 24) :
    ((generate_id ts rand st).1).length = 24 ∧
    ((generate_id ts rand st).1).toList.all isLowerHexDigit = true ∧
    hexCharsToNat (((generate_id ts rand st).1).toList.take 8) = ts ∧
    hexCharsToNat ((((generate_id ts rand st).1).toList.drop 8).take 10) = rand ∧
    hexCharsToNat (((generate_id ts rand st).1).toList.drop 18) = st.counter ∧
    ((generate_id ts rand st).2).counter = (st.counter + 1) % 2 ^ 24 :=
  ⟨generate_id_length ts rand st, generate_id_all_hex ts rand st,
    generate_id_ts_val ts rand st hts, generate_id_rand_val ts rand st hr,
    generate_id_counter_val ts rand st hc, generate_id_counter ts rand st⟩

theorem generated_id_format_witness :
    ((generate_id 1700000000 12345 ⟨42⟩).1).length = 24 ∧
    ((generate_id 1700000000 12345 ⟨42⟩).1).toList.all isLowerHexDigit = true ∧
    hexCharsToNat (((generate_id 1700000000 12345 ⟨42⟩).1).toList.take 8) = 1700000000 ∧
    hexCharsToNat ((((generate_id 1700000000 12345 ⟨42⟩).1).toList.drop 8).take 10) = 12345 ∧
    hexCharsToNat (((generate_id 1700000000 12345 ⟨42⟩).1).toList.drop 18) = 42 ∧
    ((generate_id 1700000000 12345 ⟨42⟩).2).counter = (42 + 1) % 2 ^ 24 :=
  generated_id_format 1700000000 12345 ⟨42⟩ (by norm_num) (by norm_num) (by norm_num)

/-- C1, counterexample: two successive calls within the same timestamp second
where the later call draws a smaller 5-byte random value produce a strictly
*smaller* identifier, because the fresh random bytes sit above the counter. -/
theorem generate_id_not_monotonic :
    hexCharsToNat (((generate_id 1000 3 (generate_id 1000 7 ⟨5⟩).2).1).toList) <
      hexCharsToNat (((generate_id 1000 7 ⟨5⟩).1).toList) := by decide

/-- C1 amended: the id of the later of two successive calls is strictly
greater whenever the later call observes a strictly greater timestamp. -/
theorem generate_id_monotonic_in_timestamp (ts1 r1 ts2 r2 : Nat) (st : GenState)
    (hts1 : ts1 < 2 ^ 32) (hts2 : ts2 < 2 ^ 32) (hr1 : r1 < 2 ^ 40) (hr2 : r2 < 2 ^ 40)
    (hc : st.counter < 2 ^ 24) (hlt : ts1 < ts2) :
    hexCharsToNat (((generate_id ts1 r1 st).1).toList) <
      hexCharsToNat (((generate_id ts2 r2 (generate_id ts1 r1 st).2).1).toList) := by
  have hc2 : ((generate_id ts1 r1 st).2).counter < 2 ^ 24 := by
    rw [generate_id_counter]
    exact Nat.mod_lt _ (by norm_num)
  rw [generate_id_val ts1 r1 st hts1 hr1 hc,
    generate_id_val ts2 r2 _ hts2 hr2 hc2]
  have h64 : (2 : Nat) ^ 64 = 18446744073709551616 := by norm_num
  have h40 : (2 : Nat) ^ 40 = 1099511627776 := by norm_num
  have h24 : (2 : Nat) ^ 24 = 16777216 := by norm_num
  rw [h64, h24] at *
  rw [h40] at hr1
  nlinarith [((generate_id ts1 r1 st).2).counter]

theorem generate_id_monotonic_in_timestamp_witness :
    hexCharsToNat (((generate_id 1000 7 ⟨5⟩).1).toList) <
      hexCharsToNat (((generate_id 1001 3 (generate_id 1000 7 ⟨5⟩).2).1).toList) :=
  generate_id_monotonic_in_timestamp 1000 7 1001 3 ⟨5⟩ (by norm_num) (by norm_num)
    (by norm_num) (by norm_num) (by norm_num) (by norm_num)

/-! ### Sequences of `generate_id` calls (claim C3) -/

/-- State of the `_counter` cell after `i` calls to `generate_id`, where the
`k`-th call observes timestamp `(f k).1` and random bits `(f k).2`. -/
def stateAt (f : Nat → Nat × Nat) (st : GenState) : Nat → GenState
  | 0 => st
  | i + 1 => (generate_id (f i).1 (f i).2 (stateAt f st i)).2

/-- Identifier returned by the `i`-th call in the sequence. -/
def idAt (f : Nat → Nat × Nat) (st : GenState) (i : Nat) : String :=
  (generate_id (f i).1 (f i).2 (stateAt f st i)).1

theorem stateAt_counter (f : Nat → Nat × Nat) (st : GenState) (i : Nat)
    (hc : st.counter < 2 ^ 24) :
    (stateAt f st i).counter = (st.counter + i) % 2 ^ 24 := by
  induction i with
  | zero =>
    show st.counter = (st.counter + 0) % 2 ^ 24
    rw [Nat.add_zero, Nat.mod_eq_of_lt hc]
  | succ i ih =>
    show ((generate_id (f i).1 (f i).2 (stateAt f st i)).2).counter = _
    rw [generate_id_counter, ih]
    norm_num
    omega

theorem stateAt_counter_lt (f : Nat → Nat × Nat) (st : GenState) (i : Nat)
    (hc : st.counter < 2 ^ 24) : (stateAt f st i).counter < 2 ^ 24 := by
  rw [stateAt_counter f st i hc]
  exact Nat.mod_lt _ (by norm_num)

/-- C3 amended: in a sequence of calls, any two distinct calls whose indices
differ by less than `2 ^ 24` return different identifiers; calls observing
different timestamp seconds differ in the first 4 bytes (first 8 hex
characters), and calls observing the same second differ in the final 3
counter bytes (last 6 hex characters). -/
theorem generated_ids_unique (f : Nat → Nat × Nat) (st : GenState) (i j : Nat)
    (hc : st.counter < 2 ^ 24)
    (hts : ∀ k, (f k).1 < 2 ^ 32) (_hrand : ∀ k, (f k).2 < 2 ^ 40)
    (hij : i < j) (hwin : j - i < 2 ^ 24) :
    idAt f st i ≠ idAt f st j ∧
    ((f i).1 ≠ (f j).1 →
      (idAt f st i).toList.take 8 ≠ (idAt f st j).toList.take 8) ∧
    ((f i).1 = (f j).1 →
      (idAt f st i).toList.drop 18 ≠ (idAt f st j).toList.drop 18) := by
  have h24 : (2 : Nat) ^ 24 = 16777216 := by norm_num
  rw [h24] at hwin
  have hlti := stateAt_counter_lt f st i hc
  have hltj := stateAt_counter_lt f st j hc
  have hne : (stateAt f st i).counter ≠ (stateAt f st j).counter := by
    rw [stateAt_counter f st i hc, stateAt_counter f st j hc, h24]
    omega
  have hdrop : (idAt f st i).toList.drop 18 ≠ (idAt f st j).toList.drop 18 := by
    intro heq
    apply hne
    have hv := congrArg hexCharsToNat heq
    rwa [show idAt f st i = (generate_id (f i).1 (f i).2 (stateAt f st i)).1 from rfl,
      show idAt f st j = (generate_id (f j).1 (f j).2 (stateAt f st j)).1 from rfl,
      generate_id_counter_val _ _ _ hlti, generate_id_counter_val _ _ _ hltj] at hv
  have htake : (f i).1 ≠ (f j).1 →
      (idAt f st i).toList.take 8 ≠ (idAt f st j).toList.take 8 := by
    intro htsne heq
    apply htsne
    have hv := congrArg hexCharsToNat heq
    rwa [show idAt f st i = (generate_id (f i).1 (f i).2 (stateAt f st i)).1 from rfl,
      show idAt f st j = (generate_id (f j).1 (f j).2 (stateAt f st j)).1 from rfl,
      generate_id_ts_val _ _ _ (hts i), generate_id_ts_val _ _ _ (hts j)] at hv
  refine ⟨fun heq => hdrop ?_, htake, fun _ => hdrop⟩
  exact congrArg (fun s => s.toList.drop 18) heq

theorem generated_ids_unique_witness :
    idAt (fun _ => (5, 6)) ⟨0⟩ 0 ≠ idAt (fun _ => (5, 6)) ⟨0⟩ 1 ∧
    ((5 : Nat) ≠ 5 →
      (idAt (fun _ => (5, 6)) ⟨0⟩ 0).toList.take 8 ≠
        (idAt (fun _ => (5, 6)) ⟨0⟩ 1).toList.take 8) ∧
    ((5 : Nat) = 5 →
      (idAt (fun _ => (5, 6)) ⟨0⟩ 0).toList.drop 18 ≠
        (idAt (fun _ => (5, 6)) ⟨0⟩ 1).toList.drop 18) :=
  generated_ids_unique (fun _ => (5, 6)) ⟨0⟩ 0 1 (by norm_num)
    (fun _ => by norm_num) (fun _ => by norm_num) (by norm_num) (by norm_num)

/-- C3, counterexample: call 0 and call `2 ^ 24` are separated by
`2 ^ 24 - 1` intervening calls (fewer than `2 ^ 24`), yet when both observe
the same timestamp second and the same random draw the counter has wrapped
all the way around and the two identifiers are *equal*. -/
theorem generated_ids_collision_at_wraparound :
    (0 : Nat) ≠ 16777216 ∧ 16777216 - 0 - 1 < 2 ^ 24 ∧
    idAt (fun _ => (1000, 7)) ⟨0⟩ 0 = idAt (fun _ => (1000, 7)) ⟨0⟩ 16777216 := by
  refine ⟨by norm_num, by norm_num, ?_⟩
  have h : stateAt (fun _ => (1000, 7)) ⟨0⟩ 16777216 = (⟨0⟩ : GenState) := by
    apply GenState.counter_inj
    rw [stateAt_counter _ _ _ (by norm_num)]
    norm_num
  show (generate_id 1000 7 (stateAt (fun _ => (1000, 7)) ⟨0⟩ 0)).1 =
    (generate_id 1000 7 (stateAt (fun _ => (1000, 7)) ⟨0⟩ 16777216)).1
  rw [h]
  rfl

/-! ### Regular-expression matching

`emails.py` and `messaging.py` validate with `re.compile(...).match`.  The
two patterns in play are fixed sequences of character classes with `?`, `*`,
`+` and `{n}` repetition, embedded here as a continuation-passing
backtracking matcher: `chClass` consumes one character of a class, `chOpt`
optionally consumes one, `chStar` consumes any number, and `pyDollar` is
Python's `$` (end of string, or just before a single trailing newline). -/

def chClass (p : Char → Bool) (k : List Char → Bool) : List Char → Bool
  | [] => false
  | c :: rest => p c && k rest

def chOpt (p : Char → Bool) (k : List Char → Bool) (s : List Char) : Bool :=
  chClass p k s || k s

def chStar (p : Char → Bool) (k : List Char → Bool) : List Char → Bool
  | [] => k []
  | c :: rest => k (c :: rest) || (p c && chStar p k rest)

def pyDollar : List Char → Bool
  | [] => true
  | [c] => c = '\n'
  | _ => false

theorem chClass_eq_true (p : Char → Bool) (k : List Char → Bool) (s : List Char)
    (h : chClass p k s = true) :
    ∃ c rest, s = c :: rest ∧ p c = true ∧ k rest = true := by
  cases s with
  | nil => simp [chClass] at h
  | cons c rest =>
    simp only [chClass, Bool.and_eq_true] at h
    exact ⟨c, rest, rfl, h.1, h.2⟩

theorem chStar_eq_true (p : Char → Bool) (k : List Char → Bool) :
    ∀ s : List Char, chStar p k s = true →
      ∃ pre post, s = pre ++ post ∧ (∀ c ∈ pre, p c = true) ∧ k post = true := by
  intro s
  induction s with
  | nil =>
    intro h
    exact ⟨[], [], rfl, by simp, by simpa [chStar] using h⟩
  | cons c rest ih =>
    intro h
    simp only [chStar, Bool.or_eq_true, Bool.and_eq_true] at h
    rcases h with h | ⟨hp, hs⟩
    · exact ⟨[], c :: rest, rfl, by simp, h⟩
    · obtain ⟨pre, post, heq, hall, hk⟩ := ih hs
      refine ⟨c :: pre, post, by simp [heq], ?_, hk⟩
      intro x hx
      rcases List.mem_cons.1 hx with hx | hx
      · subst hx; exact hp
      · exact hall x hx

/-! ### `classes/emails.py`: the `emailaddress` class -/

/-- The character class `[a-zA-Z0-9._%+-]` of `EMAIL_PATTERN`. -/
def isEmailLocalChar (c : Char) : Bool :=
  c.isAlpha || c.isDigit || c = '.' || c = '_' || c = '%' || c = '+' || c = '-'

/-- The character class `[a-zA-Z0-9.-]` of `EMAIL_PATTERN`. -/
def isEmailDomainChar (c : Char) : Bool :=
  c.isAlpha || c.isDigit || c = '.' || c = '-'

/-- Embeds `emailaddress.EMAIL_PATTERN.match`: the anchored pattern
`[a-zA-Z0-9._%+-]+ @ [a-zA-Z0-9.-]+ \. [a-zA-Z]{2,} $` applied from the
start of the string. -/
def EMAIL_PATTERN_match (s : String) : Bool :=
  chClass isEmailLocalChar (chStar isEmailLocalChar
    (chClass (fun c => c = '@')
      (chClass isEmailDomainChar (chStar isEmailDomainChar
        (chClass (fun c => c = '.')
          (chClass Char.isAlpha (chClass Char.isAlpha (chStar Char.isAlpha pyDollar))))))))
    s.toList

/-- Python `s.split(sep, 1)`: split at the first occurrence of `sep`,
returning `none` when `sep` does not occur (in which case the two-variable
unpacking in `_parse_email` raises `ValueError`). -/
def splitFirst (sep : Char) : List Char → Option (List Char × List Char)
  | [] => none
  | c :: rest =>
    if c = sep then some ([], rest)
    else
      match splitFirst sep rest with
      | none => none
      | some (a, b) => some (c :: a, b)

/-- The validated record held by an `emailaddress` instance. -/
structure emailaddress where
  address : String
  username : String
  domain : String
deriving DecidableEq

/-- Embeds `emailaddress._parse_email`: split the address at the first `'@'`; any
failure (no `'@'`, or an empty side) surfaces as
`ValueError("Invalid email address format: ...")`. -/
def parse_email (addr : String) : Except String (String × String) :=
  match splitFirst '@' addr.toList with
  | none => .error ("Invalid email address format: " ++ addr)
  | some (u, d) =>
    if u = [] ∨ d = [] then .error ("Invalid email address format: " ++ addr)
    else .ok (String.mk u, String.mk d)

/-- Embeds `emailaddress.__init__`: reject empty input, normalise with
`.lower().strip()` (written inline below), validate against `EMAIL_PATTERN`,
then parse into username and domain. -/
def emailaddress.init (address : String) : Except String emailaddress :=
  if address = "" then .error "Email address cannot be empty"
  else if EMAIL_PATTERN_match (pyStrip (pyLower address)) = true then
    match parse_email (pyStrip (pyLower address)) with
    | .error e => .error e
    | .ok (u, d) => .ok ⟨pyStrip (pyLower address), u, d⟩
  else .error ("Invalid email address format: " ++ pyStrip (pyLower address))

def exceptIsOk {ε α : Type} : Except ε α → Bool
  | .ok _ => true
  | .error _ => false

theorem splitFirst_append (sep : Char) (u d : List Char) (h : sep ∉ u) :
    splitFirst sep (u ++ sep :: d) = some (u, d) := by
  induction u with
  | nil => simp [splitFirst]
  | cons c rest ih =>
    have hc : ¬ c = sep := fun hcs => h (hcs ▸ List.mem_cons_self c rest)
    have hrest : sep ∉ rest := fun hr => h (List.mem_cons_of_mem c hr)
    simp only [List.cons_append, splitFirst, if_neg hc, List.append_eq]
    rw [ih hrest]

/-- A string accepted by `EMAIL_PATTERN` decomposes as a non-empty run of
local-part characters, an `'@'`, and a non-empty remainder. -/
theorem email_match_structure (a : String) (h : EMAIL_PATTERN_match a = true) :
    ∃ u d, a.toList = u ++ '@' :: d ∧ u ≠ [] ∧
      (∀ c ∈ u, isEmailLocalChar c = true) ∧ d ≠ [] := by
  unfold EMAIL_PATTERN_match at h
  obtain ⟨c0, r0, hs, hc0, h1⟩ := chClass_eq_true _ _ _ h
  obtain ⟨pre, post, hr0, hall, h2⟩ := chStar_eq_true _ _ _ h1
  obtain ⟨cat, r1, hpost, hat, h3⟩ := chClass_eq_true _ _ _ h2
  obtain ⟨d0, r2, hr1, _, _⟩ := chClass_eq_true _ _ _ h3
  have hat' : cat = '@' := by simpa using hat
  refine ⟨c0 :: pre, r1, ?_, by simp, ?_, by simp [hr1]⟩
  · rw [hs, hr0, hpost, hat']
    simp
  · intro x hx
    rcases List.mem_cons.1 hx with hx | hx
    · subst hx; exact hc0
    · exact hall x hx

theorem isEmailLocalChar_ne_at (c : Char) (h : isEmailLocalChar c = true) : c ≠ '@' := by
  intro hc
  subst hc
  exact absurd h (by decide)

theorem parse_email_of_match (a : String) (hm : EMAIL_PATTERN_match a = true) :
    ∃ u d : List Char, splitFirst '@' a.toList = some (u, d) ∧ u ≠ [] ∧ d ≠ [] ∧
      parse_email a = .ok (String.mk u, String.mk d) := by
  obtain ⟨u, d, heq, hu, hall, hd⟩ := email_match_structure a hm
  have hnotin : '@' ∉ u := fun hin => isEmailLocalChar_ne_at '@' (hall '@' hin) rfl
  have hsplit : splitFirst '@' a.toList = some (u, d) := by
    rw [heq]
    exact splitFirst_append _ _ _ hnotin
  refine ⟨u, d, hsplit, hu, hd, ?_⟩
  unfold parse_email
  rw [hsplit]
  simp [hu, hd]

/-- C4: constructing an `emailaddress` raises `ValueError` iff the input is
empty or its lowercased, stripped form fails `EMAIL_PATTERN`; on success the
stored address is the lowercased stripped input and username/domain are the
non-empty parts before and after the first `'@'`. -/
theorem email_validation_spec (s : String) :
    (exceptIsOk (emailaddress.init s) = false ↔
      (s = "" ∨ EMAIL_PATTERN_match (pyStrip (pyLower s)) = false)) ∧
    (∀ e : emailaddress, emailaddress.init s = .ok e →
      e.address = pyStrip (pyLower s) ∧
      splitFirst '@' e.address.toList = some (e.username.toList, e.domain.toList) ∧
      e.username ≠ "" ∧ e.domain ≠ "") := by
  by_cases hs : s = ""
  · subst hs
    refine ⟨by simp [emailaddress.init, exceptIsOk], ?_⟩
    intro e he
    simp [emailaddress.init] at he
  · by_cases hm : EMAIL_PATTERN_match (pyStrip (pyLower s)) = true
    · obtain ⟨u, d, hsplit, hu, hd, hok⟩ := parse_email_of_match _ hm
      have hinit : emailaddress.init s =
          .ok ⟨pyStrip (pyLower s), String.mk u, String.mk d⟩ := by
        unfold emailaddress.init
        rw [if_neg hs, if_pos hm, hok]
      constructor
      · rw [hinit]
        simp [exceptIsOk, hs, hm]
      · intro e he
        rw [hinit] at he
        injection he with he
        subst he
        refine ⟨rfl, ?_, ?_, ?_⟩
        · simpa using hsplit
        · intro hemp
          exact hu (by simpa using congrArg String.toList hemp)
        · intro hemp
          exact hd (by simpa using congrArg String.toList hemp)
    · have hm' : EMAIL_PATTERN_match (pyStrip (pyLower s)) = false := by
        cases h : EMAIL_PATTERN_match (pyStrip (pyLower s))
        · rfl
        · exact absurd h hm
      have hinit : emailaddress.init s =
          .error ("Invalid email address format: " ++ pyStrip (pyLower s)) := by
        unfold emailaddress.init
        rw [if_neg hs, if_neg hm]
      constructor
      · rw [hinit]
        simp [exceptIsOk, hm']
      · intro e he
        rw [hinit] at he
        exact absurd he (by simp)

theorem email_validation_spec_witness :
    (exceptIsOk (emailaddress.init "A@b.co") = false ↔
      ("A@b.co" = "" ∨ EMAIL_PATTERN_match (pyStrip (pyLower "A@b.co")) = false)) ∧
    ((⟨"a@b.co", "a", "b.co"⟩ : emailaddress).address = pyStrip (pyLower "A@b.co") ∧
      splitFirst '@' ((⟨"a@b.co", "a", "b.co"⟩ : emailaddress).address).toList =
        some (("a" : String).toList, ("b.co" : String).toList) ∧
      ("a" : String) ≠ "" ∧ ("b.co" : String) ≠ "") :=
  ⟨(email_validation_spec "A@b.co").1,
    (email_validation_spec "A@b.co").2 ⟨"a@b.co", "a", "b.co"⟩ (by rfl)⟩

/-! ### `classes/messaging.py`: the `PhoneNumber` class -/

/-- The separator class `[-.\s]` of `PHONE_PATTERN` (`\s` over ASCII is the
same character set as `isPySpace`). -/
def isPhoneSep (c : Char) : Bool :=
  c = '-' || c = '.' || isPySpace c

/-- Embeds `PhoneNumber.PHONE_PATTERN.match`: the anchored pattern
`\+? 1? \s* \(? [0-9]{3} \)? [-.\s]? [0-9]{3} [-.\s]? [0-9]{4} $`. -/
def PHONE_PATTERN_match (s : String) : Bool :=
  chOpt (fun c => c = '+')
    (chOpt (fun c => c = '1')
      (chStar isPySpace
        (chOpt (fun c => c = '(')
          (chClass Char.isDigit (chClass Char.isDigit (chClass Char.isDigit
            (chOpt (fun c => c = ')')
              (chOpt isPhoneSep
                (chClass Char.isDigit (chClass Char.isDigit (chClass Char.isDigit
                  (chOpt isPhoneSep
                    (chClass Char.isDigit (chClass Char.isDigit (chClass Char.isDigit
                      (chClass Char.isDigit pyDollar))))))))))))))))
    s.toList

structure PhoneNumber where
  raw : String
  normalized : String
  e164 : String
deriving DecidableEq

/-- The chained `.replace(...)` calls of `PhoneNumber._normalize`: remove
every space, hyphen, parenthesis and dot. -/
def removePhonePunct (s : String) : String :=
  String.mk (s.toList.filter fun c => !(c = ' ' || c = '-' || c = '(' || c = ')' || c = '.'))

/-- Embeds `PhoneNumber._normalize`. -/
def PhoneNumber.pyNormalize (phone : String) : String :=
  let normalized := removePhonePunct phone
  if !(normalized.startsWith "+") then
    if normalized.startsWith "1" && normalized.length == 11 then "+" ++ normalized
    else if normalized.length == 10 then "+1" ++ normalized
    else "+" ++ normalized
  else normalized

/-- Embeds `PhoneNumber._to_e164` (`re.sub(r'\D', '', phone)` keeps exactly the
digit characters). -/
def PhoneNumber.to_e164 (phone : String) : String :=
  let digits0 := String.mk (phone.toList.filter Char.isDigit)
  let digits1 :=
    if digits0.length == 10 && !(phone.startsWith "+") then "1" ++ digits0 else digits0
  if !(digits1.startsWith "+") then
    let digits2 :=
      if (!(digits1.startsWith "1") || digits1.length != 11) && digits1.length == 10
      then "1" ++ digits1 else digits1
    "+" ++ digits2
  else digits1

/-- Embeds `PhoneNumber.__init__`: the only `raise ValueError` is the emptiness
check; the input is then stripped, normalised and converted, with no
`PHONE_PATTERN` test. -/
def PhoneNumber.init (phone : String) : Except String PhoneNumber :=
  if phone = "" then .error "Phone number cannot be empty"
  else
    .ok ⟨pyStrip phone, PhoneNumber.pyNormalize (pyStrip phone),
      PhoneNumber.to_e164 (pyStrip phone)⟩

/-- Embeds `PhoneNumber.is_valid`: the only place `PHONE_PATTERN` is consulted. -/
def PhoneNumber.is_valid (pn : PhoneNumber) : Bool :=
  PHONE_PATTERN_match pn.raw

/-- Embeds `SMSMessenger.validate_phone_number` (identical in
`VoiceCallMessenger`): `True` iff `PhoneNumber(phone)` does not raise. -/
def validate_phone_number (phone : String) : Bool :=
  exceptIsOk (PhoneNumber.init phone)

/-- C5, counterexample: `"abc"` is non-empty and its stripped form fails
`PHONE_PATTERN`, yet `PhoneNumber("abc")` constructs successfully and
`validate_phone_number` returns `True`. -/
theorem phone_pattern_not_checked_on_init :
    ("abc" : String) ≠ "" ∧ PHONE_PATTERN_match (pyStrip "abc") = false ∧
    exceptIsOk (PhoneNumber.init "abc") = true ∧
    validate_phone_number "abc" = true := by decide

/-- C5 amended: construction rejects exactly the empty string, so
`validate_phone_number` returns `False` only on the empty string; the
`PHONE_PATTERN` regex is not consulted during construction. -/
theorem phone_init_rejects_only_empty (s : String) :
    (exceptIsOk (PhoneNumber.init s) = false ↔ s = "") ∧
    (validate_phone_number s = true ↔ s ≠ "") := by
  unfold validate_phone_number PhoneNumber.init
  by_cases hs : s = "" <;> simp [hs, exceptIsOk]

/-! ### `dataModels.py`: `Contact.validate_name` -/

/-- The accepted name characters: `ch.isalpha()` (modelled over ASCII) or
one of space, hyphen, apostrophe (`Char.ofNat 39`). -/
def isNameChar (c : Char) : Bool :=
  c.isAlpha || c = ' ' || c = '-' || c = Char.ofNat 39

/-- Embeds `Contact.validate_name`, the pydantic field validator for `first` and
`last`. -/
def validate_name (value : String) : Except String String :=
  if pyStrip value = "" then .error "Name cannot be empty"
  else if (pyStrip value).toList.all isNameChar then .ok (pyStrip value)
  else .error "Name must only contain letters, spaces, hyphens, or apostrophes"

/-- C8: name validation succeeds iff the stripped name is non-empty and all
its characters are letters, spaces, hyphens or apostrophes; on success the
stored value is the stripped string. -/
theorem name_validation_spec (s : String) :
    (exceptIsOk (validate_name s) = true ↔
      (pyStrip s ≠ "" ∧ (pyStrip s).toList.all isNameChar = true)) ∧
    (∀ r, validate_name s = .ok r → r = pyStrip s) := by
  by_cases h0 : pyStrip s = ""
  · have hv : validate_name s = .error "Name cannot be empty" := by
      unfold validate_name
      rw [if_pos h0]
    rw [hv]
    exact ⟨⟨fun h => absurd h Bool.false_ne_true, fun hcon => (hcon.1 h0).elim⟩,
      fun r hr => Except.noConfusion hr⟩
  · by_cases h1 : (pyStrip s).toList.all isNameChar = true
    · have hv : validate_name s = .ok (pyStrip s) := by
        unfold validate_name
        rw [if_neg h0, if_pos h1]
      rw [hv]
      exact ⟨⟨fun _ => ⟨h0, h1⟩, fun _ => rfl⟩, fun r hr => (Except.ok.inj hr).symm⟩
    · have hv : validate_name s =
          .error "Name must only contain letters, spaces, hyphens, or apostrophes" := by
        unfold validate_name
        rw [if_neg h0, if_neg h1]
      rw [hv]
      exact ⟨⟨fun h => absurd h Bool.false_ne_true, fun hcon => (h1 hcon.2).elim⟩,
        fun r hr => Except.noConfusion hr⟩

theorem name_validation_spec_witness :
    (exceptIsOk (validate_name "  Mary-Jane ") = true ↔
      (pyStrip "  Mary-Jane " ≠ "" ∧ (pyStrip "  Mary-Jane ").toList.all isNameChar = true)) ∧
    ("Mary-Jane" : String) = pyStrip "  Mary-Jane " :=
  ⟨(name_validation_spec "  Mary-Jane ").1,
    (name_validation_spec "  Mary-Jane ").2 "Mary-Jane" (by rfl)⟩

/-! ### `SMSMessenger.calculate_sms_segments` -/

structure SegmentsInfo where
  characters : Nat
  segments : Nat
deriving DecidableEq

/-- Embeds `SMSMessenger.calculate_sms_segments`. -/
def calculate_sms_segments (message : String) : SegmentsInfo :=
  if message.length = 0 then ⟨0, 0⟩
  else if message.length ≤ 160 then ⟨message.length, 1⟩
  else ⟨message.length, (message.length + 152) / 153⟩

/-- C9: `characters` is the message length; `segments` is 0 for the empty
message, 1 up to 160 characters, and the ceiling of `length / 153` beyond. -/
theorem sms_segments_spec (m : String) :
    (calculate_sms_segments m).characters = m.length ∧
    (m.length = 0 → (calculate_sms_segments m).segments = 0) ∧
    (1 ≤ m.length → m.length ≤ 160 → (calculate_sms_segments m).segments = 1) ∧
    (160 < m.length → (calculate_sms_segments m).segments = m.length ⌈/⌉ 153) := by
  unfold calculate_sms_segments
  by_cases h0 : m.length = 0
  · simp [h0]
  · by_cases h1 : m.length ≤ 160
    · simp [h0, h1]
    · simp [h0, h1]
      intro _
      rw [Nat.ceilDiv_eq_add_pred_div]
      congr 1

set_option maxRecDepth 4000 in
theorem sms_segments_spec_witness :
    (calculate_sms_segments "").segments = 0 ∧
    (calculate_sms_segments "hello").segments = 1 ∧
    (calculate_sms_segments (String.mk (List.replicate 200 'a'))).segments =
      (String.mk (List.replicate 200 'a')).length ⌈/⌉ 153 :=
  ⟨(sms_segments_spec "").2.1 rfl,
    (sms_segments_spec "hello").2.2.1 (by decide) (by decide),
    (sms_segments_spec (String.mk (List.replicate 200 'a'))).2.2.2 (by decide)⟩

/-! ### `dataModels.Message` and the message-creating handlers

The pydantic `Message` model constrains `type`, `direction` and `status` to
string literals and strips/checks `body` and `recipient`.  The `datetime`
and `metadata` fields are carried by the real model but never constrained or
read by the claims under study, so they are not modelled. -/

structure Message where
  contactId : String
  type : String
  direction : String
  recipient : String
  subject : Option String
  body : String
  status : String
  errorMessage : Option String
deriving DecidableEq

/-- Constructing a `dataModels.Message`: pydantic rejects values outside the
`Literal` sets and runs the `body` / `recipient` validators; a rejection
surfaces as a `ValidationError`. -/
def Message.validated (contactId ty direction recipient : String)
    (subject : Option String) (body status : String) : Except String Message :=
  if ¬ (ty = "email" ∨ ty = "sms") then .error "type must be email or sms"
  else if ¬ (direction = "sent" ∨ direction = "received") then .error "invalid direction"
  else if ¬ (status = "draft" ∨ status = "sending" ∨ status = "sent" ∨
      status = "failed" ∨ status = "delivered") then .error "invalid status"
  else if pyStrip body = "" then .error "Message body cannot be empty"
  else if pyStrip recipient = "" then .error "Recipient cannot be empty"
  else .ok ⟨contactId, ty, direction, pyStrip recipient, subject, pyStrip body, status, none⟩

/-- Embeds `send_email_message` (from `main.py`): the document inserted into
`messages_collection`, if any.  `contact_found` is the `user_collection`
lookup, `send_success` / `send_error` the `email_messenger.send_email`
result; a pydantic `ValidationError` is caught and nothing is stored. -/
def send_email_message_stored (contact_id recipient_email subject body : String)
    (is_draft contact_found send_success : Bool) (send_error : String) : Option Message :=
  if contact_id = "" then none
  else if recipient_email = "" then none
  else if pyStrip body = "" then none
  else if ¬ contact_found then none
  else
    match Message.validated contact_id "email" "sent" recipient_email (some subject) body
        (if is_draft then "draft" else "sending") with
    | .error _ => none
    | .ok m =>
      if is_draft then some m
      else if send_success then some { m with status := "sent" }
      else some { m with status := "failed", errorMessage := some send_error }

/-- Embeds `send_sms_native` (from `main.py`): the SMS-intent document inserted into
`messages_collection`, if any.  The `result` of `get_mobile_sms_uri`
succeeds exactly when `validate_phone_number` does. -/
def send_sms_native_stored (contact_id phone_number message : String)
    (contact_found : Bool) : Option Message :=
  if phone_number = "" then none
  else if contact_id ≠ "" ∧ ¬ contact_found then none
  else if validate_phone_number phone_number = true ∧ contact_id ≠ "" then
    match Message.validated contact_id "sms" "sent" phone_number none message "sending" with
    | .error _ => none
    | .ok m => some m
  else none

/-- Embeds `initiate_voice_call` (from `main.py`): the call-history document it tries to
insert, if any.  It builds `Message(type="call", status="initiated", ...)`;
both values are outside the model's `Literal` sets. -/
def initiate_voice_call_stored (contact_id phone_number contact_name : String)
    (contact_found : Bool) : Option Message :=
  if phone_number = "" then none
  else if contact_id ≠ "" ∧ ¬ contact_found then none
  else if validate_phone_number phone_number = true ∧ contact_id ≠ "" then
    match Message.validated contact_id "call" "sent" phone_number none
        (if contact_name ≠ "" then "Voice call to " ++ contact_name else "Voice call")
        "initiated" with
    | .error _ => none
    | .ok m => some m
  else none

/-! ### The messages collection and the draft-only endpoints -/

/-- A stored document of `messages_collection` as the draft endpoints see
it: `dict.get` on a possibly missing key is an `Option`. -/
structure MsgDoc where
  docId : String
  status : Option String
  subject : Option String
  body : Option String
  recipient : Option String
deriving DecidableEq

/-- Embeds `messages_collection.find_one({"_id": mid})`. -/
def find_one (store : List MsgDoc) (mid : String) : Option MsgDoc :=
  store.find? fun d => d.docId == mid

/-- Embeds `messages_collection.update_one({"_id": mid}, {"$set": ...})`: rewrite
the first matching document. -/
def update_one : List MsgDoc → String → (MsgDoc → MsgDoc) → List MsgDoc
  | [], _, _ => []
  | d :: rest, mid, f =>
    if d.docId == mid then f d :: rest else d :: update_one rest mid f

/-- Embeds `messages_collection.delete_one({"_id": mid})`: remove the first
matching document. -/
def delete_one : List MsgDoc → String → List MsgDoc
  | [], _ => []
  | d :: rest, mid => if d.docId == mid then rest else d :: delete_one rest mid

/-- The request body of `update_message`: which of the three updatable keys
are present in `message_data`. -/
structure UpdateData where
  subject : Option String
  body : Option String
  recipient : Option String

/-- The `$set` document built from the present keys. -/
def applyUpdate (data : UpdateData) (d : MsgDoc) : MsgDoc :=
  { d with
    subject := match data.subject with | some s => some s | none => d.subject
    body := match data.body with | some b => some b | none => d.body
    recipient := match data.recipient with | some r => some r | none => d.recipient }

inductive MsgResponse where
  | okResp (id msg : String)
  | err (msg : String)
deriving DecidableEq

/-- Embeds `update_message` (from `main.py`): response plus the collection after the
call. -/
def update_message (store : List MsgDoc) (message_id : String) (data : UpdateData) :
    MsgResponse × List MsgDoc :=
  match find_one store message_id with
  | none => (.err "Message not found", store)
  | some existing =>
    if existing.status ≠ some "draft" then
      (.err "Only draft messages can be updated", store)
    else if data.subject.isSome ∨ data.body.isSome ∨ data.recipient.isSome then
      (.okResp message_id "Draft updated successfully",
        update_one store message_id (applyUpdate data))
    else (.okResp message_id "Draft updated successfully", store)

/-- Embeds `delete_message` (from `main.py`): response plus the collection after the
call.  (The `deleted_count == 0` re-check cannot fire once `find_one`
succeeded, since `delete_one` then removes that document.) -/
def delete_message (store : List MsgDoc) (message_id : String) :
    MsgResponse × List MsgDoc :=
  match find_one store message_id with
  | none => (.err "Message not found", store)
  | some existing =>
    if existing.status ≠ some "draft" then
      (.err "Only draft messages can be deleted", store)
    else (.okResp message_id "Draft deleted successfully", delete_one store message_id)

/-! ### `createContact` error handling -/

/-- A Python exception as `createContact` discriminates them: a pydantic
`ValidationError` carries `(loc, msg)` pairs; anything else carries its
string rendering. -/
inductive PyExc where
  | validationError (errs : List (List String × String))
  | other (msg : String)

inductive CreateContactResponse where
  | created (id msg : String)
  | validationFailed (details : List (String × String))
  | failure (msg : String)
deriving DecidableEq

/-- The two `except` clauses of `createContact`: `ValidationError` is
reshaped into `{"error": "Validation failed", "details": [{field, message}]}`
with `field = ".".join(loc)`; every other exception becomes
`{"error": f"Failed to create contact: {e}"}`. -/
def createContact_onException : PyExc → CreateContactResponse
  | .validationError errs =>
    .validationFailed (errs.map fun e => (String.intercalate "." e.1, e.2))
  | .other m => .failure ("Failed to create contact: " ++ m)

/-- Embeds `createContact`: the try-body either yields the inserted id or raises,
and the raised exception is dispatched by `createContact_onException`. -/
def createContact (body_outcome : Except PyExc String) : CreateContactResponse :=
  match body_outcome with
  | .ok inserted_id => .created inserted_id "Contact created successfully"
  | .error e => createContact_onException e

/-- Embeds `validation_exception_handler` (from `main.py` lines 67-78): FastAPI request
validation errors are reshaped the same way, with the leading `'body'`
element of each location skipped. -/
def validation_exception_handler (errs : List (List String × String)) :
    CreateContactResponse :=
  .validationFailed (errs.map fun e => (String.intercalate "." (e.1.drop 1), e.2))

/-- C7: on contact creation a pydantic `ValidationError` is reshaped into a
Validation-failed response whose details pair each dot-joined error location
with the error text, and every other exception is returned as the single
generic string `"Failed to create contact: ..."`. -/
theorem create_contact_error_shape (body_outcome : Except PyExc String) :
    (∀ errs, body_outcome = .error (.validationError errs) →
      createContact body_outcome =
        .validationFailed (errs.map fun e => (String.intercalate "." e.1, e.2))) ∧
    (∀ m, body_outcome = .error (.other m) →
      createContact body_outcome = .failure ("Failed to create contact: " ++ m)) ∧
    (∀ errs, validation_exception_handler errs =
      .validationFailed (errs.map fun e => (String.intercalate "." (e.1.drop 1), e.2))) := by
  refine ⟨?_, ?_, fun _ => rfl⟩
  · intro errs h
    subst h
    rfl
  · intro m h
    subst h
    rfl

theorem create_contact_error_shape_witness :
    createContact (.error (.validationError [(["first"], "Name cannot be empty")])) =
      .validationFailed [("first", "Name cannot be empty")] ∧
    createContact (.error (.other "boom")) =
      .failure ("Failed to create contact: boom") :=
  ⟨(create_contact_error_shape
      (.error (.validationError [(["first"], "Name cannot be empty")]))).1 _ rfl,
    (create_contact_error_shape (.error (.other "boom"))).2.1 "boom" rfl⟩

/-! ### Claim C6: the statuses that can reach the messages collection -/

theorem update_one_map_status (store : List MsgDoc) (mid : String) (data : UpdateData) :
    (update_one store mid (applyUpdate data)).map MsgDoc.status = store.map MsgDoc.status := by
  induction store with
  | nil => rfl
  | cons d rest ih =>
    by_cases h : (d.docId == mid) = true
    · simp [update_one, h, applyUpdate]
    · simp [update_one, h, ih]

theorem update_message_preserves_status (store : List MsgDoc) (mid : String)
    (data : UpdateData) :
    ((update_message store mid data).2).map MsgDoc.status = store.map MsgDoc.status := by
  unfold update_message
  cases hf : find_one store mid with
  | none => rfl
  | some existing =>
    by_cases hst : existing.status ≠ some "draft"
    · simp [hst]
    · by_cases hup : data.subject.isSome ∨ data.body.isSome ∨ data.recipient.isSome
      · simp [hst, hup, update_one_map_status]
      · simp [hst, hup]

/-- C6, counterexample: `send_sms_native` stores a message whose status is
`"sending"`, which is none of `"draft"`, `"sent"`, `"failed"`. -/
theorem message_status_sending_stored :
    send_sms_native_stored "c1" "5551234567" "hi" true =
      some ⟨"c1", "sms", "sent", "5551234567", none, "hi", "sending", none⟩ ∧
    ¬ (("sending" : String) = "draft" ∨ ("sending" : String) = "sent" ∨
      ("sending" : String) = "failed") := by
  constructor
  · rfl
  · decide

theorem Message.validated_status {cid ty dir recip : String} {subj : Option String}
    {body status : String} {m : Message}
    (h : Message.validated cid ty dir recip subj body status = .ok m) :
    m.status = status := by
  unfold Message.validated at h
  split at h
  · exact Except.noConfusion h
  · split at h
    · exact Except.noConfusion h
    · split at h
      · exact Except.noConfusion h
      · split at h
        · exact Except.noConfusion h
        · split at h
          · exact Except.noConfusion h
          · exact (congrArg Message.status (Except.ok.inj h)).symm

/-- C6 amended: the statuses reaching the messages collection are exactly
drawn from `{"draft", "sent", "failed", "sending"}`: `send_email_message`
stores draft/sent/failed, `send_sms_native` stores `"sending"`,
`initiate_voice_call` never stores anything (pydantic rejects
`type="call"` / `status="initiated"`), and `update_message` never changes a
stored status. -/
theorem message_status_inventory (contact_id recipient subject body phone cname : String)
    (is_draft contact_found send_success : Bool) (send_error : String)
    (store : List MsgDoc) (mid : String) (data : UpdateData) :
    (∀ m, send_email_message_stored contact_id recipient subject body
        is_draft contact_found send_success send_error = some m →
      m.status = "draft" ∨ m.status = "sent" ∨ m.status = "failed") ∧
    (∀ m, send_sms_native_stored contact_id phone body contact_found = some m →
      m.status = "sending") ∧
    initiate_voice_call_stored contact_id phone cname contact_found = none ∧
    ((update_message store mid data).2).map MsgDoc.status = store.map MsgDoc.status := by
  refine ⟨?_, ?_, ?_, update_message_preserves_status store mid data⟩
  · intro m hm
    unfold send_email_message_stored at hm
    by_cases h1 : contact_id = ""
    · rw [if_pos h1] at hm
      exact Option.noConfusion hm
    · rw [if_neg h1] at hm
      by_cases h2 : recipient = ""
      · rw [if_pos h2] at hm
        exact Option.noConfusion hm
      · rw [if_neg h2] at hm
        by_cases h3 : pyStrip body = ""
        · rw [if_pos h3] at hm
          exact Option.noConfusion hm
        · rw [if_neg h3] at hm
          by_cases h4 : contact_found = true
          · rw [if_neg (not_not_intro h4)] at hm
            cases hv : Message.validated contact_id "email" "sent" recipient
                (some subject) body (if is_draft then "draft" else "sending") with
            | error e =>
              rw [hv] at hm
              exact Option.noConfusion hm
            | ok m0 =>
              rw [hv] at hm
              have hm' : (if is_draft = true then some m0
                  else if send_success = true then
                    some { m0 with status := "sent" }
                  else some { m0 with status := "failed", errorMessage := some send_error }) =
                  some m := hm
              by_cases hd : is_draft = true
              · rw [if_pos hd] at hm'
                have hx := Option.some.inj hm'
                subst hx
                left
                have hst := Message.validated_status hv
                rwa [if_pos hd] at hst
              · rw [if_neg hd] at hm'
                by_cases hs : send_success = true
                · rw [if_pos hs] at hm'
                  have hx := Option.some.inj hm'
                  subst hx
                  right; left; rfl
                · rw [if_neg hs] at hm'
                  have hx := Option.some.inj hm'
                  subst hx
                  right; right; rfl
          · rw [if_pos h4] at hm
            exact Option.noConfusion hm
  · intro m hm
    unfold send_sms_native_stored at hm
    by_cases h1 : phone = ""
    · rw [if_pos h1] at hm
      exact Option.noConfusion hm
    · rw [if_neg h1] at hm
      by_cases h2 : contact_id ≠ "" ∧ ¬ contact_found
      · rw [if_pos h2] at hm
        exact Option.noConfusion hm
      · rw [if_neg h2] at hm
        by_cases h3 : validate_phone_number phone = true ∧ contact_id ≠ ""
        · rw [if_pos h3] at hm
          cases hv : Message.validated contact_id "sms" "sent" phone none body "sending" with
          | error e =>
            rw [hv] at hm
            exact Option.noConfusion hm
          | ok m0 =>
            rw [hv] at hm
            have hx := Option.some.inj hm
            subst hx
            exact Message.validated_status hv
        · rw [if_neg h3] at hm
          exact Option.noConfusion hm
  · unfold initiate_voice_call_stored
    by_cases h1 : phone = ""
    · rw [if_pos h1]
    · rw [if_neg h1]
      by_cases h2 : contact_id ≠ "" ∧ ¬ contact_found
      · rw [if_pos h2]
      · rw [if_neg h2]
        by_cases h3 : validate_phone_number phone = true ∧ contact_id ≠ ""
        · rw [if_pos h3]
          have hv : Message.validated contact_id "call" "sent" phone none
              (if cname ≠ "" then "Voice call to " ++ cname else "Voice call")
              "initiated" = .error "type must be email or sms" := by
            unfold Message.validated
            rw [if_pos (by decide)]
          rw [hv]
        · rw [if_neg h3]

theorem message_status_inventory_witness :
    ((Message.mk "c1" "email" "sent" "r@x.co" (some "s") "hi" "draft" none).status = "draft" ∨
      (Message.mk "c1" "email" "sent" "r@x.co" (some "s") "hi" "draft" none).status = "sent" ∨
      (Message.mk "c1" "email" "sent" "r@x.co" (some "s") "hi" "draft" none).status = "failed") ∧
    (Message.mk "c1" "sms" "sent" "5551234567" none "hi" "sending" none).status = "sending" ∧
    initiate_voice_call_stored "c1" "5551234567" "Ann" true = none :=
  ⟨(message_status_inventory "c1" "r@x.co" "s" "hi" "5551234567" "Ann"
      true true true "" [] "m1" ⟨none, none, none⟩).1 _ (by rfl),
    (message_status_inventory "c1" "r@x.co" "s" "hi" "5551234567" "Ann"
      true true true "" [] "m1" ⟨none, none, none⟩).2.1 _ (by rfl),
    (message_status_inventory "c1" "r@x.co" "s" "hi" "5551234567" "Ann"
      true true true "" [] "m1" ⟨none, none, none⟩).2.2.1⟩

/-! ### Claim C10: only drafts can be updated or deleted -/

/-- C10: when the stored message with the requested id has a status other
than `"draft"`, both `update_message` and `delete_message` return an error
response and leave the messages collection exactly as it was. -/
theorem non_draft_messages_immutable (store : List MsgDoc) (mid : String)
    (data : UpdateData) (doc : MsgDoc)
    (hfind : find_one store mid = some doc) (hst : doc.status ≠ some "draft") :
    update_message store mid data = (.err "Only draft messages can be updated", store) ∧
    delete_message store mid = (.err "Only draft messages can be deleted", store) := by
  unfold update_message delete_message
  rw [hfind]
  simp [hst]

theorem non_draft_messages_immutable_witness :
    update_message [⟨"m1", some "sent", none, none, none⟩] "m1" ⟨none, none, none⟩ =
      (.err "Only draft messages can be updated", [⟨"m1", some "sent", none, none, none⟩]) ∧
    delete_message [⟨"m1", some "sent", none, none, none⟩] "m1" =
      (.err "Only draft messages can be deleted", [⟨"m1", some "sent", none, none, none⟩]) :=
  non_draft_messages_immutable [⟨"m1", some "sent", none, none, none⟩] "m1"
    ⟨none, none, none⟩ ⟨"m1", some "sent", none, none, none⟩ (by rfl) (by decide)

end Contacts
